import Mathlib

/-!
Verification development for the MoniBot worker transaction engine
(blockchain module, multi-recipient batch module, cross-chain probe,
and the command-processing dedup gate).

The JavaScript source is shallowly embedded as pure Lean functions.
External effects (RPC reads, the router contract, the database, the
directory lookup) enter through explicit environment records; each
executor additionally returns a trace of the operations it performed,
so that properties such as "no second on-chain call" are statements
about the trace.

Token quantities are modelled as natural numbers of base units; the
human-readable gross amount is a natural number of whole tokens, so
that parseUnits is multiplication by 10 ^ decimals and formatUnits is
decimal rendering with trailing-zero trimming, exactly as in viem.
Console logging is elided; database log writes appear as trace steps.
-/

namespace Monibot

/-! ## String utilities (substring search, lowercasing, decimal rendering) -/

/-- Lowercase a string character by character (models the source
toLowerCase() on the ASCII message strings involved). -/
def strLower (s : String) : String :=
  String.mk (s.toList.map Char.toLower)

/-- Substring containment, modelling the source String.includes: does
`pat` occur as a contiguous run of characters inside `s`? -/
def containsSub (s pat : String) : Bool :=
  decide (pat.toList <:+: s.toList)

/-- Case-insensitive substring containment (the specification wording
"contains ... case-insensitively"). -/
def containsSubCI (s pat : String) : Bool :=
  containsSub (strLower s) (strLower pat)

/-- Drop trailing zero characters. -/
def trimTrailingZeros (l : List Char) : List Char :=
  (l.reverse.dropWhile (fun c => c == '0')).reverse

/-- Left-pad a digit string with zeros up to width `n`. -/
def padStartZeros (s : String) (n : Nat) : String :=
  String.mk (List.replicate (n - s.length) '0') ++ s

/-- viem formatUnits(v, decimals) on a non-negative integer: integer
part, then a fractional part with trailing zeros trimmed, omitted when
zero. -/
def formatUnits (v decimals : Nat) : String :=
  let ip := v / 10 ^ decimals
  let frac := padStartZeros (Nat.repr (v % 10 ^ decimals)) decimals
  let fracT := trimTrailingZeros frac.toList
  if fracT.isEmpty then Nat.repr ip
  else Nat.repr ip ++ "." ++ String.mk fracT

/-! ## RPC endpoint pool (src/blockchain.js lines 25-48)

The pool is the list RPC_URLS; the mutable module variable rpcIndex is
threaded explicitly. `poolSize` stands for RPC_URLS.length. -/

/-- rotateRpc from the source: advance the index by one only when it is
strictly below the last position; otherwise do nothing. -/
def rotateRpc (poolSize idx : Nat) : Nat :=
  if idx < poolSize - 1 then idx + 1 else idx

/-- currentRpc from the source: the endpoint at the index clamped to
the last position. -/
def currentRpc (urls : List String) (idx : Nat) : Option String :=
  urls.get? (min idx (urls.length - 1))

/-- Apply `k` successive rotation requests to an index. -/
def applyRotations (poolSize : Nat) : Nat → Nat → Nat
  | 0, idx => idx
  | k + 1, idx => applyRotations poolSize k (rotateRpc poolSize idx)

/-- isRateLimitError from the source: the message contains "429", or
its lowercase form contains "rate limit" or "over rate limit". -/
def isRateLimitError (msg : String) : Bool :=
  containsSub msg "429" || containsSub (strLower msg) "rate limit"
    || containsSub (strLower msg) "over rate limit"

/-! ## Chain operations and the rotate-rebuild-retry pattern

Each executor returns, next to its result, the list of chain operations
it performed and the RPC index it left behind.  `retried` is the
try/catch pattern that appears verbatim at four places in the source
(p2p preflight, p2p gas estimate, grant preflight, grant gas estimate):
attempt once; on a rate-limit-classified failure rotate, rebuild the
clients (captured by the new index) and attempt exactly once more,
propagating whatever the second attempt produces; on any other failure
propagate immediately. -/

inductive ChainOp where
  | preflightRead
  | rotate
  | feeRead
  | gasEstimate
  | txWrite (gasLimit : Nat)
  | waitReceipt
deriving DecidableEq, Repr

def retried {α : Type} (poolSize : Nat) (op : ChainOp)
    (attempt : Nat → Except String α) (idx : Nat) :
    Except String α × List ChainOp × Nat :=
  match attempt 0 with
  | .ok v => (.ok v, [op], idx)
  | .error e =>
    if isRateLimitError e then
      (attempt 1, [op, ChainOp.rotate, op], rotateRpc poolSize idx)
    else
      (.error e, [op], idx)

/-! ## Pre-flight validation (src/blockchain.js lines 154-219 and 289-335)

The snapshot records what the concurrent read batch returned.  The
decision functions reproduce the check order and the thrown message
strings of the source. -/

structure P2PSnapshot where
  nonce : Nat
  balance : Nat
  allowance : Nat
  tweetUsed : Bool
deriving DecidableEq, Repr

def p2pPreflightCheck (decimals amount : Nat) (s : P2PSnapshot) : Except String Unit :=
  let amountInUnits := amount * 10 ^ decimals
  if s.tweetUsed then
    .error "ERROR_DUPLICATE_TWEET"
  else if s.balance < amountInUnits then
    .error ("ERROR_BALANCE:Has " ++ formatUnits s.balance decimals
      ++ ", needs " ++ Nat.repr amount)
  else if s.allowance < amountInUnits then
    .error ("ERROR_ALLOWANCE:Approved " ++ formatUnits s.allowance decimals
      ++ ", needs " ++ Nat.repr amount)
  else
    .ok ()

structure GrantSnapshot where
  grantIssued : Bool
  contractBalance : Nat
deriving DecidableEq, Repr

def grantPreflightCheck (decimals amount : Nat) (s : GrantSnapshot) : Except String Unit :=
  let amountInUnits := amount * 10 ^ decimals
  if s.grantIssued then
    .error "ERROR_DUPLICATE_GRANT"
  else if s.contractBalance < amountInUnits then
    .error ("ERROR_CONTRACT_BALANCE:Has " ++ formatUnits s.contractBalance decimals
      ++ ", needs " ++ Nat.repr amount)
  else
    .ok ()

/-! ## Transfer executors (src/blockchain.js lines 154-273 and 289-387)

The environment supplies the outcome of each RPC interaction; the
attempt functions are indexed by the attempt number so that a retry
against a rotated endpoint may behave differently.  The fee read
(step 2 of the source) is a plain read with no retry wrapper. -/

structure P2PEnv where
  preflight : Nat → Except String P2PSnapshot
  calcFee : Except String Nat
  estimateGas : Nat → Except String Nat
  txHash : String

def executeP2PViaRouter (env : P2PEnv) (decimals poolSize idx amount : Nat) :
    Except String (String × Nat) × List ChainOp × Nat :=
  match retried poolSize ChainOp.preflightRead env.preflight idx with
  | (.error e, t1, idx1) => (.error e, t1, idx1)
  | (.ok snap, t1, idx1) =>
    match p2pPreflightCheck decimals amount snap with
    | .error e => (.error e, t1, idx1)
    | .ok _ =>
      match env.calcFee with
      | .error e => (.error e, t1 ++ [ChainOp.feeRead], idx1)
      | .ok fee =>
        match retried poolSize ChainOp.gasEstimate env.estimateGas idx1 with
        | (.error e, t2, idx2) => (.error e, t1 ++ [ChainOp.feeRead] ++ t2, idx2)
        | (.ok gas, t2, idx2) =>
          let gasLimit := gas + gas / 5
          (.ok (env.txHash, fee),
            t1 ++ [ChainOp.feeRead] ++ t2
              ++ [ChainOp.txWrite gasLimit, ChainOp.waitReceipt], idx2)

structure GrantEnv where
  preflight : Nat → Except String GrantSnapshot
  calcFee : Except String Nat
  estimateGas : Nat → Except String Nat
  txHash : String

def executeGrantViaRouter (env : GrantEnv) (decimals poolSize idx amount : Nat) :
    Except String (String × Nat) × List ChainOp × Nat :=
  match retried poolSize ChainOp.preflightRead env.preflight idx with
  | (.error e, t1, idx1) => (.error e, t1, idx1)
  | (.ok snap, t1, idx1) =>
    match grantPreflightCheck decimals amount snap with
    | .error e => (.error e, t1, idx1)
    | .ok _ =>
      match env.calcFee with
      | .error e => (.error e, t1 ++ [ChainOp.feeRead], idx1)
      | .ok fee =>
        match retried poolSize ChainOp.gasEstimate env.estimateGas idx1 with
        | (.error e, t2, idx2) => (.error e, t1 ++ [ChainOp.feeRead] ++ t2, idx2)
        | (.ok gas, t2, idx2) =>
          let gasLimit := gas + gas / 5
          (.ok (env.txHash, fee),
            t1 ++ [ChainOp.feeRead] ++ t2
              ++ [ChainOp.txWrite gasLimit, ChainOp.waitReceipt], idx2)

/-! ## Multi-recipient batch (src/multiRecipient.js lines 81-231)

Balances and the per-recipient amount are in human token units, as in
the source (the batch pre-check reads converted balances).  The
database logging calls inside the loop are side effects on the external
log and do not influence the returned results; they are elided.  The
third component of the result is the list of dedup keys actually passed
to the single-transfer executor, in order: it records which recipients
were attempted. -/

structure Profile where
  id : String
  payTag : Option String
  xUsername : Option String
  walletAddress : String
deriving DecidableEq, Repr

inductive Outcome where
  | success (tag hash : String)
  | failed (tag reason : String)
deriving DecidableEq, Repr

def Outcome.isSuccess : Outcome → Bool
  | .success _ _ => true
  | .failed _ _ => false

def Outcome.isFailed : Outcome → Bool
  | .success _ _ => false
  | .failed _ _ => true

structure BatchSummary where
  total : Nat
  success : Nat
  failed : Nat
deriving DecidableEq, Repr

structure BatchEnv where
  balance : Nat
  allowance : Nat
  resolve : String → Option Profile
  execResult : String → Except String String

/-- The self-send filter predicate from the source: the (lowercased)
recipient tag equals the lowercased pay tag or x-username of the
sender, when present. -/
def isSelfTag (sender : Profile) (tag : String) : Bool :=
  (match sender.payTag with
   | some t => tag == strLower t
   | none => false) ||
  (match sender.xUsername with
   | some t => tag == strLower t
   | none => false)

/-- The per-recipient failure classifier from the catch block of the
batch loop. -/
def classifyBatchError (msg : String) : String :=
  if containsSub msg "ERROR_BALANCE" then "Insufficient balance"
  else if containsSub msg "ERROR_ALLOWANCE" then "Insufficient allowance"
  else if containsSub msg "ERROR_DUPLICATE" then "Already processed"
  else "Transaction failed"

/-- Step 2 of the batch: resolve each tag through the directory; tags
with no profile fail individually, resolved ones are kept in order. -/
def resolveTags (env : BatchEnv) : List String → List Outcome × List (String × Profile)
  | [] => ([], [])
  | tag :: rest =>
    let r := resolveTags env rest
    match env.resolve tag with
    | none => (Outcome.failed tag "Monitag not found" :: r.1, r.2)
    | some p => (r.1, (tag, p) :: r.2)

/-- Step 3 of the batch: sequential execution.  On a failure classified
as balance or allowance exhaustion the loop marks the remainder of the
FULL resolved list (from one past the first occurrence of the failing
tag, exactly as the indexOf/find/slice in the source) as stopped and
terminates; any other failure only fails the current recipient. -/
def execLoop (env : BatchEnv) (tweetId : String) (full : List (String × Profile)) :
    List (String × Profile) → List Outcome × List String
  | [] => ([], [])
  | (tag, p) :: rest =>
    let key := tweetId ++ "_" ++ tag
    match env.execResult key with
    | .ok hash =>
      let r := execLoop env tweetId full rest
      (Outcome.success (p.payTag.getD tag) hash :: r.1, key :: r.2)
    | .error msg =>
      let reason := classifyBatchError msg
      if reason == "Insufficient balance" || reason == "Insufficient allowance" then
        (Outcome.failed tag reason ::
          (full.drop (List.findIdx (fun q => q.1 == tag) full + 1)).map
            (fun q => Outcome.failed q.1 (reason ++ " (batch stopped)")),
          [key])
      else
        let r := execLoop env tweetId full rest
        (Outcome.failed tag reason :: r.1, key :: r.2)

/-- The tail of the batch after the balance gate: allowance pre-check,
resolution and sequential execution, with the summary assembled exactly
as the source does in each return. -/
def batchPhase2 (env : BatchEnv) (amount : Nat) (tweetId : String)
    (totalCount : Nat) (acc : List Outcome) (tags : List String) :
    List Outcome × BatchSummary × List String :=
  if env.allowance < amount then
    let outcomes := acc ++ tags.map (fun t => Outcome.failed t "Insufficient allowance")
    (outcomes, ⟨totalCount, 0, outcomes.length⟩, [])
  else
    let r := resolveTags env tags
    let ex := execLoop env tweetId r.2 r.2
    let outcomes := acc ++ r.1 ++ ex.1
    (outcomes,
      ⟨totalCount, (outcomes.filter Outcome.isSuccess).length,
        (outcomes.filter Outcome.isFailed).length⟩,
      ex.2)

def executeMultiRecipientP2P (env : BatchEnv) (sender : Profile) (amount : Nat)
    (recipientTags : List String) (tweetId : String) :
    List Outcome × BatchSummary × List String :=
  let selfOutcomes := (recipientTags.filter (fun t => isSelfTag sender t)).map
      (fun t => Outcome.failed t "Cannot send to yourself")
  let filteredTags := recipientTags.filter (fun t => !(isSelfTag sender t))
  if filteredTags.isEmpty then
    (selfOutcomes, ⟨recipientTags.length, 0, selfOutcomes.length⟩, [])
  else
    let totalNeeded := amount * filteredTags.length
    if env.balance < totalNeeded then
      let affordableCount := env.balance / amount
      if affordableCount == 0 then
        let outcomes := selfOutcomes
          ++ filteredTags.map (fun t => Outcome.failed t "Insufficient balance")
        (outcomes, ⟨recipientTags.length, 0, outcomes.length⟩, [])
      else
        batchPhase2 env amount tweetId recipientTags.length
          (selfOutcomes ++ (filteredTags.drop affordableCount).map
            (fun t => Outcome.failed t "Insufficient balance (batch limit)"))
          (filteredTags.take affordableCount)
    else
      batchPhase2 env amount tweetId recipientTags.length selfOutcomes filteredTags

/-! ## Cross-chain fallback prober (src/crossChainCheck.js lines 36-101)

A read yields the pair (balance, allowance) in base units; the probe
tries the primary endpoint, falls back once to an alternate endpoint,
and fails closed when both reads fail.  Comparisons are at base-unit
scale (the decimal conversion in the source is order-preserving). -/

structure BaseFundsEnv where
  primaryRead : Except String (Nat × Nat)
  fallbackRead : Except String (Nat × Nat)

structure FundsCheckResult where
  hasBalance : Bool
  hasAllowance : Bool
  balance : Nat
  allowance : Nat
deriving DecidableEq, Repr

def checkBaseFunds (env : BaseFundsEnv) (amount : Nat) : FundsCheckResult :=
  match env.primaryRead with
  | .ok (b, a) => ⟨decide (b ≥ amount), decide (a ≥ amount), b, a⟩
  | .error _ =>
    match env.fallbackRead with
    | .ok (b, a) => ⟨decide (b ≥ amount), decide (a ≥ amount), b, a⟩
    | .error _ => ⟨false, false, 0, 0⟩

/-! ## P2P command processing and the dedup gate (src/twitter.js lines 452-659)

The per-key state holds the two dedup layers: whether the durable local
log already has any record for the tweet id, and whether the router
contract reports the tweet id as used.  The environment carries the
parse result, the directory lookups, the funds reads and the router
execution outcome; logOk records whether the database insert performed
by logTransaction succeeds (the source swallows insert errors).  A
successful router execution sets the on-chain marker, since the
contract marks the tweet id used atomically with the transfer. -/

structure CmdState where
  logged : Bool
  onChain : Bool
deriving DecidableEq, Repr

structure CmdProfile where
  id : String
  payTag : String
  walletAddress : String
deriving DecidableEq, Repr

structure CmdEnv where
  parsed : Option (Nat × String)
  sender : Option CmdProfile
  fee : Nat
  allowance : Nat
  balance : Nat
  receiver : Option CmdProfile
  execOk : Bool
  execErr : String
  txHash : String
  logOk : Bool

inductive CmdStep where
  | checkDb
  | checkOnChain
  | feeRead
  | allowanceRead
  | balanceRead
  | execute (ok : Bool)
  | logWrite (tag : String)
deriving DecidableEq, Repr

/-- The error-code reclassification in the catch block of the command
processor. -/
def cmdErrorCode (msg : String) : String :=
  if containsSub msg "ERROR_DUPLICATE_TWEET" then "ERROR_DUPLICATE_TWEET"
  else if containsSub msg "ERROR_BALANCE" then "ERROR_BALANCE"
  else if containsSub msg "ERROR_ALLOWANCE" then "ERROR_ALLOWANCE"
  else "ERROR_BLOCKCHAIN"

def processP2PCommand (e : CmdEnv) (s : CmdState) : CmdState × List CmdStep :=
  if s.logged then
    (s, [CmdStep.checkDb])
  else if s.onChain then
    ({ s with logged := e.logOk },
      [CmdStep.checkDb, CmdStep.checkOnChain, CmdStep.logWrite "SKIP_ALREADY_ONCHAIN"])
  else
    match e.parsed with
    | none =>
      ({ s with logged := e.logOk },
        [CmdStep.checkDb, CmdStep.checkOnChain, CmdStep.logWrite "SKIP_INVALID_SYNTAX"])
    | some (amount, _target) =>
      match e.sender with
      | none =>
        ({ s with logged := e.logOk },
          [CmdStep.checkDb, CmdStep.checkOnChain, CmdStep.logWrite "ERROR_SENDER_NOT_FOUND"])
      | some _sender =>
        if e.allowance < amount then
          ({ s with logged := e.logOk },
            [CmdStep.checkDb, CmdStep.checkOnChain, CmdStep.feeRead,
              CmdStep.allowanceRead, CmdStep.logWrite "ERROR_ALLOWANCE"])
        else if e.balance < amount then
          ({ s with logged := e.logOk },
            [CmdStep.checkDb, CmdStep.checkOnChain, CmdStep.feeRead,
              CmdStep.allowanceRead, CmdStep.balanceRead, CmdStep.logWrite "ERROR_BALANCE"])
        else
          match e.receiver with
          | none =>
            ({ s with logged := e.logOk },
              [CmdStep.checkDb, CmdStep.checkOnChain, CmdStep.feeRead,
                CmdStep.allowanceRead, CmdStep.balanceRead,
                CmdStep.logWrite "ERROR_TARGET_NOT_FOUND"])
          | some _receiver =>
            if e.execOk then
              (⟨e.logOk, true⟩,
                [CmdStep.checkDb, CmdStep.checkOnChain, CmdStep.feeRead,
                  CmdStep.allowanceRead, CmdStep.balanceRead,
                  CmdStep.execute true, CmdStep.logWrite e.txHash])
            else
              ({ s with logged := e.logOk },
                [CmdStep.checkDb, CmdStep.checkOnChain, CmdStep.feeRead,
                  CmdStep.allowanceRead, CmdStep.balanceRead,
                  CmdStep.execute false, CmdStep.logWrite (cmdErrorCode e.execErr)])

/-- Run a sequence of poll-cycle invocations for one dedup key,
threading the key state and concatenating the traces. -/
def runCmds : List CmdEnv → CmdState → CmdState × List CmdStep
  | [], s => (s, [])
  | e :: rest, s =>
    let r := processP2PCommand e s
    let r2 := runCmds rest r.1
    (r2.1, r.2 ++ r2.2)

/-! ## Concrete demonstration environments for the witnesses -/

def demoP2PEnvOk : P2PEnv where
  preflight := fun _ => .ok ⟨7, 100 * 10 ^ 6, 100 * 10 ^ 6, false⟩
  calcFee := .ok 10000
  estimateGas := fun _ => .ok 90000
  txHash := "0xhash"

def demoP2PEnvDup : P2PEnv where
  preflight := fun _ => .ok ⟨7, 100 * 10 ^ 6, 100 * 10 ^ 6, true⟩
  calcFee := .ok 10000
  estimateGas := fun _ => .ok 90000
  txHash := "0xhash"

def demoP2PEnvFeeRateLimited : P2PEnv where
  preflight := fun _ => .ok ⟨7, 100 * 10 ^ 6, 100 * 10 ^ 6, false⟩
  calcFee := .error "HTTP 429 Too Many Requests"
  estimateGas := fun _ => .ok 90000
  txHash := "0xhash"

def demoGrantEnvOk : GrantEnv where
  preflight := fun _ => .ok ⟨false, 100 * 10 ^ 6⟩
  calcFee := .ok 10000
  estimateGas := fun _ => .ok 90000
  txHash := "0xhash"

def demoGrantEnvDup : GrantEnv where
  preflight := fun _ => .ok ⟨true, 0⟩
  calcFee := .ok 10000
  estimateGas := fun _ => .ok 90000
  txHash := "0xhash"

def demoGrantEnvEmpty : GrantEnv where
  preflight := fun _ => .ok ⟨false, 0⟩
  calcFee := .ok 10000
  estimateGas := fun _ => .ok 90000
  txHash := "0xhash"

def demoGrantEnvFeeRateLimited : GrantEnv where
  preflight := fun _ => .ok ⟨false, 100 * 10 ^ 6⟩
  calcFee := .error "HTTP 429 Too Many Requests"
  estimateGas := fun _ => .ok 90000
  txHash := "0xhash"

def demoProfile (tag : String) : Profile where
  id := tag
  payTag := some tag
  xUsername := some tag
  walletAddress := "0x" ++ tag

def demoSender : Profile := demoProfile "sender"

def demoBatchEnv : BatchEnv where
  balance := 25
  allowance := 100
  resolve := fun t => some (demoProfile t)
  execResult := fun _ => .ok "0xbatchhash"

def demoBatchEnvDry : BatchEnv where
  balance := 25
  allowance := 100
  resolve := fun t => some (demoProfile t)
  execResult := fun _ => .error "ERROR_BALANCE:Has 0, needs 10"

def demoCmdEnvOk : CmdEnv where
  parsed := some (5, "alice")
  sender := some ⟨"s1", "bob", "0xbob"⟩
  fee := 1
  allowance := 10
  balance := 10
  receiver := some ⟨"r1", "alice", "0xalice"⟩
  execOk := true
  execErr := ""
  txHash := "0xcmdhash"
  logOk := true

def demoBaseEnvOk : BaseFundsEnv where
  primaryRead := .ok (80, 60)
  fallbackRead := .error "down"

def demoBaseEnvFallback : BaseFundsEnv where
  primaryRead := .error "down"
  fallbackRead := .ok (80, 60)

def demoBaseEnvDead : BaseFundsEnv where
  primaryRead := .error "down"
  fallbackRead := .error "down again"

/-! # Theorems -/

/-! ## C6: rotation monotonicity and clamped endpoint selection -/

theorem rotateRpc_monotone (poolSize idx : Nat) : idx ≤ rotateRpc poolSize idx := by
  unfold rotateRpc
  split <;> omega

theorem applyRotations_last (poolSize : Nat) :
    ∀ k idx, poolSize - 1 ≤ idx → applyRotations poolSize k idx = idx := by
  intro k
  induction k with
  | zero => intro idx _; rfl
  | succ n ih =>
    intro idx h
    show applyRotations poolSize n (rotateRpc poolSize idx) = idx
    have hrot : rotateRpc poolSize idx = idx := by
      unfold rotateRpc; split <;> omega
    rw [hrot]
    exact ih idx h

theorem applyRotations_from_zero (poolSize : Nat) :
    ∀ k idx, idx + k ≤ poolSize - 1 → applyRotations poolSize k idx = idx + k := by
  intro k
  induction k with
  | zero => intro idx _; rfl
  | succ n ih =>
    intro idx h
    show applyRotations poolSize n (rotateRpc poolSize idx) = idx + (n + 1)
    have hrot : rotateRpc poolSize idx = idx + 1 := by
      unfold rotateRpc; split
      · rfl
      · omega
    rw [hrot, ih (idx + 1) (by omega)]
    omega

theorem applyRotations_add (poolSize : Nat) :
    ∀ a b idx, applyRotations poolSize (a + b) idx
      = applyRotations poolSize b (applyRotations poolSize a idx) := by
  intro a
  induction a with
  | zero => intro b idx; simp [applyRotations]
  | succ n ih =>
    intro b idx
    have h1 : n + 1 + b = (n + b) + 1 := by omega
    rw [h1]
    show applyRotations poolSize (n + b) (rotateRpc poolSize idx) = _
    rw [ih b (rotateRpc poolSize idx)]
    rfl

/-- C6: for a pool of size N the index starts at 0; each rotation
increments the index by exactly one when it is below N-1 and is a no-op
at or beyond the last index; the index never decreases; after N-1
rotations from 0 the index sits at the last position and stays there
under any further rotation requests; and the current endpoint is the
one at the index clamped to the last position, i.e. the endpoint at
min(index, N-1): unclamped below N, and frozen at the last endpoint for
all larger indices. -/
theorem C6_rpc_rotation (urls : List String) (idx k : Nat)
    (hlen : urls.length = poolSize) :
    (idx < poolSize - 1 → rotateRpc poolSize idx = idx + 1) ∧
    (poolSize - 1 ≤ idx → rotateRpc poolSize idx = idx) ∧
    idx ≤ rotateRpc poolSize idx ∧
    applyRotations poolSize (poolSize - 1) 0 = poolSize - 1 ∧
    applyRotations poolSize ((poolSize - 1) + k) 0 = poolSize - 1 ∧
    (idx < poolSize → currentRpc urls idx = urls.get? idx) ∧
    (poolSize - 1 ≤ idx → currentRpc urls idx = urls.get? (poolSize - 1)) := by
  subst hlen
  refine ⟨?_, ?_, rotateRpc_monotone _ _, ?_, ?_, ?_, ?_⟩
  · intro h; unfold rotateRpc; split
    · rfl
    · omega
  · intro h; unfold rotateRpc; split
    · omega
    · rfl
  · simpa using applyRotations_from_zero urls.length (urls.length - 1) 0 (by omega)
  · rw [applyRotations_add,
      applyRotations_from_zero urls.length (urls.length - 1) 0 (by omega)]
    simpa using applyRotations_last urls.length k (0 + (urls.length - 1)) (by omega)
  · intro h
    unfold currentRpc
    have hm : min idx (urls.length - 1) = idx := by omega
    rw [hm]
  · intro h
    unfold currentRpc
    have hm : min idx (urls.length - 1) = urls.length - 1 := by omega
    rw [hm]

/-- Witness for C6 on a concrete pool of four endpoints at index 2. -/
theorem C6_rpc_rotation_witness :
    (2 < 4 - 1 → rotateRpc 4 2 = 2 + 1) ∧
    (4 - 1 ≤ 2 → rotateRpc 4 2 = 2) ∧
    2 ≤ rotateRpc 4 2 ∧
    applyRotations 4 (4 - 1) 0 = 4 - 1 ∧
    applyRotations 4 ((4 - 1) + 5) 0 = 4 - 1 ∧
    (2 < 4 → currentRpc ["a", "b", "c", "d"] 2 = ["a", "b", "c", "d"].get? 2) ∧
    (4 - 1 ≤ 2 → currentRpc ["a", "b", "c", "d"] 2 = ["a", "b", "c", "d"].get? (4 - 1)) :=
  C6_rpc_rotation ["a", "b", "c", "d"] 2 5 rfl

/-! ## C2: p2p pre-flight decision order and error details -/

theorem string_toList_append (s t : String) : (s ++ t).toList = s.toList ++ t.toList := by
  cases s; cases t; rfl

theorem containsSub_iff (s pat : String) :
    containsSub s pat = true ↔ pat.toList <:+: s.toList :=
  decide_eq_true_iff

theorem containsSub_middle (pre mid post : String) :
    containsSub (pre ++ mid ++ post) mid = true := by
  rw [containsSub_iff]
  refine ⟨pre.toList, post.toList, ?_⟩
  simp [string_toList_append]

/-- C2: the p2p pre-flight decision over one snapshot checks, in order:
the dedup marker (duplicate-command error), then balance against the
gross amount (insufficient-balance error whose detail carries the
actual balance and the requested amount), then allowance (insufficient-
allowance error whose detail carries the actual allowance); first match
wins and a clean snapshot passes.  The final conjunct is the spec
scenario: balance 50, allowance 100, amount 75 at 6 decimals fails with
the balance error and detail "Has 50, needs 75". -/
theorem C2_preflight_decision (decimals amount : Nat) (s : P2PSnapshot) :
    (s.tweetUsed = true →
      p2pPreflightCheck decimals amount s = .error "ERROR_DUPLICATE_TWEET") ∧
    (s.tweetUsed = false → s.balance < amount * 10 ^ decimals →
      p2pPreflightCheck decimals amount s =
        .error ("ERROR_BALANCE:Has " ++ formatUnits s.balance decimals
          ++ ", needs " ++ Nat.repr amount) ∧
      containsSub ("ERROR_BALANCE:Has " ++ formatUnits s.balance decimals
          ++ ", needs " ++ Nat.repr amount) (formatUnits s.balance decimals) = true ∧
      containsSub ("ERROR_BALANCE:Has " ++ formatUnits s.balance decimals
          ++ ", needs " ++ Nat.repr amount) (Nat.repr amount) = true) ∧
    (s.tweetUsed = false → amount * 10 ^ decimals ≤ s.balance →
      s.allowance < amount * 10 ^ decimals →
      p2pPreflightCheck decimals amount s =
        .error ("ERROR_ALLOWANCE:Approved " ++ formatUnits s.allowance decimals
          ++ ", needs " ++ Nat.repr amount) ∧
      containsSub ("ERROR_ALLOWANCE:Approved " ++ formatUnits s.allowance decimals
          ++ ", needs " ++ Nat.repr amount) (formatUnits s.allowance decimals) = true) ∧
    (s.tweetUsed = false → amount * 10 ^ decimals ≤ s.balance →
      amount * 10 ^ decimals ≤ s.allowance →
      p2pPreflightCheck decimals amount s = .ok ()) ∧
    p2pPreflightCheck 6 75 ⟨0, 50 * 10 ^ 6, 100 * 10 ^ 6, false⟩ =
      .error ("ERROR_BALANCE:" ++ "Has 50, needs 75") := by
  refine ⟨?_, ?_, ?_, ?_, rfl⟩
  · intro h
    unfold p2pPreflightCheck
    rw [h]
    rfl
  · intro h hb
    refine ⟨?_, ?_, ?_⟩
    · unfold p2pPreflightCheck
      rw [h]
      simp only [Bool.false_eq_true, if_false, if_pos hb]
    · have := containsSub_middle "ERROR_BALANCE:Has " (formatUnits s.balance decimals)
        (", needs " ++ Nat.repr amount)
      simpa [String.append_assoc] using this
    · have := containsSub_middle
        ("ERROR_BALANCE:Has " ++ formatUnits s.balance decimals ++ ", needs ")
        (Nat.repr amount) ""
      simpa [String.append_assoc] using this
  · intro h hb ha
    refine ⟨?_, ?_⟩
    · unfold p2pPreflightCheck
      rw [h]
      simp only [Bool.false_eq_true, if_false, if_neg (by omega : ¬ s.balance < amount * 10 ^ decimals),
        if_pos ha]
    · have := containsSub_middle "ERROR_ALLOWANCE:Approved " (formatUnits s.allowance decimals)
        (", needs " ++ Nat.repr amount)
      simpa [String.append_assoc] using this
  · intro h hb ha
    unfold p2pPreflightCheck
    rw [h]
    simp only [Bool.false_eq_true, if_false,
      if_neg (by omega : ¬ s.balance < amount * 10 ^ decimals),
      if_neg (by omega : ¬ s.allowance < amount * 10 ^ decimals)]

/-- Witness for C2 at the spec scenario snapshot. -/
theorem C2_preflight_decision_witness :
    ((⟨0, 50 * 10 ^ 6, 100 * 10 ^ 6, false⟩ : P2PSnapshot).tweetUsed = false) ∧
    (50 * 10 ^ 6 < 75 * 10 ^ 6) ∧
    p2pPreflightCheck 6 75 ⟨0, 50 * 10 ^ 6, 100 * 10 ^ 6, false⟩ =
      .error ("ERROR_BALANCE:Has " ++ formatUnits (50 * 10 ^ 6) 6
        ++ ", needs " ++ Nat.repr 75) :=
  ⟨rfl, by norm_num,
    ((C2_preflight_decision 6 75 ⟨0, 50 * 10 ^ 6, 100 * 10 ^ 6, false⟩).2.1 rfl
      (by norm_num)).1⟩

/-! ## C9: cross-chain prober fails closed and compares reads to the amount -/

/-- C9: the secondary-chain funds check never propagates an error: when
the primary read succeeds it reports hasBalance and hasAllowance as the
comparisons of the read balance and allowance against the requested
amount; when the primary read fails and the one retry succeeds it
reports the same comparisons on the retry values; and when both fail it
returns the fail-closed result with no funds and zero balances. -/
theorem C9_cross_chain_fail_closed (env : BaseFundsEnv) (amount b a : Nat) :
    (env.primaryRead = .ok (b, a) →
      checkBaseFunds env amount =
        ⟨decide (b ≥ amount), decide (a ≥ amount), b, a⟩ ∧
      ((checkBaseFunds env amount).hasBalance = true ↔ amount ≤ b) ∧
      ((checkBaseFunds env amount).hasAllowance = true ↔ amount ≤ a)) ∧
    (∀ e1, env.primaryRead = .error e1 → env.fallbackRead = .ok (b, a) →
      checkBaseFunds env amount =
        ⟨decide (b ≥ amount), decide (a ≥ amount), b, a⟩ ∧
      ((checkBaseFunds env amount).hasBalance = true ↔ amount ≤ b) ∧
      ((checkBaseFunds env amount).hasAllowance = true ↔ amount ≤ a)) ∧
    (∀ e1 e2, env.primaryRead = .error e1 → env.fallbackRead = .error e2 →
      checkBaseFunds env amount = ⟨false, false, 0, 0⟩) := by
  refine ⟨?_, ?_, ?_⟩
  · intro h
    have hc : checkBaseFunds env amount =
        ⟨decide (b ≥ amount), decide (a ≥ amount), b, a⟩ := by
      unfold checkBaseFunds
      rw [h]
    refine ⟨hc, ?_, ?_⟩ <;> rw [hc] <;> simp [ge_iff_le]
  · intro e1 h1 h2
    have hc : checkBaseFunds env amount =
        ⟨decide (b ≥ amount), decide (a ≥ amount), b, a⟩ := by
      unfold checkBaseFunds
      rw [h1, h2]
    refine ⟨hc, ?_, ?_⟩ <;> rw [hc] <;> simp [ge_iff_le]
  · intro e1 e2 h1 h2
    unfold checkBaseFunds
    rw [h1, h2]

/-- Witness for C9 on three concrete environments: primary read
succeeds, primary fails with one successful retry, and both reads
fail. -/
theorem C9_cross_chain_fail_closed_witness :
    (checkBaseFunds demoBaseEnvOk 75 =
        ⟨decide (80 ≥ 75), decide (60 ≥ 75), 80, 60⟩) ∧
    (checkBaseFunds demoBaseEnvFallback 75 =
        ⟨decide (80 ≥ 75), decide (60 ≥ 75), 80, 60⟩) ∧
    checkBaseFunds demoBaseEnvDead 75 = ⟨false, false, 0, 0⟩ :=
  ⟨((C9_cross_chain_fail_closed demoBaseEnvOk 75 80 60).1 rfl).1,
    (((C9_cross_chain_fail_closed demoBaseEnvFallback 75 80 60).2.1 "down" rfl rfl)).1,
    (C9_cross_chain_fail_closed demoBaseEnvDead 75 0 0).2.2 "down" "down again" rfl rfl⟩

/-! ## Trace lemmas for the retry pattern -/

theorem retried_trace {α : Type} (poolSize : Nat) (op : ChainOp)
    (att : Nat → Except String α) (idx : Nat) :
    ∀ o ∈ (retried poolSize op att idx).2.1, o = op ∨ o = ChainOp.rotate := by
  intro o ho
  unfold retried at ho
  cases h0 : att 0 with
  | ok v =>
    rw [h0] at ho
    simp at ho
    exact Or.inl ho
  | error e =>
    rw [h0] at ho
    rcases Bool.eq_false_or_eq_true (isRateLimitError e) with hrl | hrl
    · simp [hrl] at ho
      tauto
    · simp [hrl] at ho
      exact Or.inl ho

theorem retried_ok {α : Type} {poolSize : Nat} {op : ChainOp}
    {att : Nat → Except String α} {idx : Nat} {v : α} {t : List ChainOp} {i : Nat}
    (h : retried poolSize op att idx = (.ok v, t, i)) : ∃ a, att a = .ok v := by
  unfold retried at h
  cases h0 : att 0 with
  | ok w =>
    rw [h0] at h
    refine ⟨0, ?_⟩
    have hw := congrArg (fun p => p.1) h
    simp at hw
    rw [h0, hw]
  | error e =>
    rw [h0] at h
    rcases Bool.eq_false_or_eq_true (isRateLimitError e) with hrl | hrl
    · simp only [hrl, if_true, Prod.mk.injEq] at h
      exact ⟨1, h.1⟩
    · simp only [hrl, Bool.false_eq_true, if_false, Prod.mk.injEq] at h
      exact absurd h.1 (by simp)

/-! ## C4: pre-flight failures never reach the chain -/

/-- C4: when the p2p pre-flight decision over the fetched snapshot
fails (duplicate marker, balance or allowance shortfall), the executor
returns exactly that error and its trace contains no gas estimation, no
fee read past the pre-flight, and no transaction write; when the grant
pre-flight decision fails (duplicate marker or treasury shortfall), the
grant executor likewise returns exactly that error with no gas
estimation, no fee read and no transaction write; and a grant whose
marker is already set decides to the duplicate-grant error for every
contract balance, i.e. before the treasury check. -/
theorem C4_preflight_fail_no_chain (envP : P2PEnv) (envG : GrantEnv)
    (decimals poolSize idx idx1 amount : Nat)
    (snapP : P2PSnapshot) (snapG : GrantSnapshot) (t1 : List ChainOp) (e : String) :
    (retried poolSize ChainOp.preflightRead envP.preflight idx = (.ok snapP, t1, idx1) →
      p2pPreflightCheck decimals amount snapP = .error e →
      executeP2PViaRouter envP decimals poolSize idx amount = (.error e, t1, idx1) ∧
      ChainOp.gasEstimate ∉ t1 ∧ ChainOp.feeRead ∉ t1 ∧ ∀ g, ChainOp.txWrite g ∉ t1) ∧
    (retried poolSize ChainOp.preflightRead envG.preflight idx = (.ok snapG, t1, idx1) →
      grantPreflightCheck decimals amount snapG = .error e →
      executeGrantViaRouter envG decimals poolSize idx amount = (.error e, t1, idx1) ∧
      ChainOp.gasEstimate ∉ t1 ∧ ChainOp.feeRead ∉ t1 ∧ ∀ g, ChainOp.txWrite g ∉ t1) ∧
    (snapG.grantIssued = true →
      grantPreflightCheck decimals amount snapG = .error "ERROR_DUPLICATE_GRANT") := by
  refine ⟨?_, ?_, ?_⟩
  · intro h1 h2
    have ht1 : ∀ o ∈ t1, o = ChainOp.preflightRead ∨ o = ChainOp.rotate := by
      have := retried_trace poolSize ChainOp.preflightRead envP.preflight idx
      rw [h1] at this
      exact this
    refine ⟨?_, ?_, ?_, ?_⟩
    · simp only [executeP2PViaRouter, h1, h2]
    · intro hmem
      rcases ht1 _ hmem with h | h <;> simp at h
    · intro hmem
      rcases ht1 _ hmem with h | h <;> simp at h
    · intro g hmem
      rcases ht1 _ hmem with h | h <;> simp at h
  · intro h1 h2
    have ht1 : ∀ o ∈ t1, o = ChainOp.preflightRead ∨ o = ChainOp.rotate := by
      have := retried_trace poolSize ChainOp.preflightRead envG.preflight idx
      rw [h1] at this
      exact this
    refine ⟨?_, ?_, ?_, ?_⟩
    · simp only [executeGrantViaRouter, h1, h2]
    · intro hmem
      rcases ht1 _ hmem with h | h <;> simp at h
    · intro hmem
      rcases ht1 _ hmem with h | h <;> simp at h
    · intro g hmem
      rcases ht1 _ hmem with h | h <;> simp at h
  · intro h2
    unfold grantPreflightCheck
    rw [h2]
    rfl

/-- Witness for C4 on concrete environments: a p2p run whose snapshot
has the dedup marker set, a grant run whose marker is set, and a grant
run that fails only the treasury-balance check — none reaches gas
estimation or a write. -/
theorem C4_preflight_fail_no_chain_witness :
    executeP2PViaRouter demoP2PEnvDup 6 4 0 50
      = (.error "ERROR_DUPLICATE_TWEET", [ChainOp.preflightRead], 0) ∧
    ChainOp.gasEstimate ∉ [ChainOp.preflightRead] ∧
    executeGrantViaRouter demoGrantEnvDup 6 4 0 50
      = (.error "ERROR_DUPLICATE_GRANT", [ChainOp.preflightRead], 0) ∧
    executeGrantViaRouter demoGrantEnvEmpty 6 4 0 50
      = (.error ("ERROR_CONTRACT_BALANCE:Has " ++ formatUnits 0 6
          ++ ", needs " ++ Nat.repr 50), [ChainOp.preflightRead], 0) ∧
    (∀ g, ChainOp.txWrite g ∉ [ChainOp.preflightRead]) := by
  obtain ⟨hp, hg, -⟩ := C4_preflight_fail_no_chain demoP2PEnvDup demoGrantEnvDup
    6 4 0 0 50 ⟨7, 100 * 10 ^ 6, 100 * 10 ^ 6, true⟩ ⟨true, 0⟩
    [ChainOp.preflightRead] "ERROR_DUPLICATE_TWEET"
  obtain ⟨hp1, hp2, -, -⟩ := hp rfl rfl
  obtain ⟨-, hgd, -⟩ := C4_preflight_fail_no_chain demoP2PEnvDup demoGrantEnvDup
    6 4 0 0 50 ⟨7, 100 * 10 ^ 6, 100 * 10 ^ 6, true⟩ ⟨true, 0⟩
    [ChainOp.preflightRead] "ERROR_DUPLICATE_GRANT"
  obtain ⟨hg1, -, -, hg4⟩ := hgd rfl rfl
  obtain ⟨-, hge, -⟩ := C4_preflight_fail_no_chain demoP2PEnvDup demoGrantEnvEmpty
    6 4 0 0 50 ⟨7, 100 * 10 ^ 6, 100 * 10 ^ 6, true⟩ ⟨false, 0⟩
    [ChainOp.preflightRead]
    ("ERROR_CONTRACT_BALANCE:Has " ++ formatUnits 0 6 ++ ", needs " ++ Nat.repr 50)
  obtain ⟨hg5, -, -, -⟩ := hge rfl rfl
  exact ⟨hp1, hp2, hg1, hg5, hg4⟩

/-! ## C5: the +20 percent gas buffer -/

/-- C5: any transaction write appearing in the trace of either executor
was submitted with gas limit e + e / 5 (natural floor division) for the
gas estimate e that the environment produced, and that limit is never
below the estimate. -/
theorem C5_gas_buffer (envP : P2PEnv) (envG : GrantEnv)
    (decimals poolSize idx amount g : Nat) :
    (ChainOp.txWrite g ∈ (executeP2PViaRouter envP decimals poolSize idx amount).2.1 →
      ∃ e, (∃ a, envP.estimateGas a = .ok e) ∧ g = e + e / 5 ∧ e ≤ g) ∧
    (ChainOp.txWrite g ∈ (executeGrantViaRouter envG decimals poolSize idx amount).2.1 →
      ∃ e, (∃ a, envG.estimateGas a = .ok e) ∧ g = e + e / 5 ∧ e ≤ g) := by
  constructor
  · intro hg
    rcases hpf : retried poolSize ChainOp.preflightRead envP.preflight idx with ⟨res1, t1, i1⟩
    have ht1 : ∀ o ∈ t1, o = ChainOp.preflightRead ∨ o = ChainOp.rotate := by
      have := retried_trace poolSize ChainOp.preflightRead envP.preflight idx
      rw [hpf] at this
      exact this
    have hnt1 : ChainOp.txWrite g ∉ t1 := by
      intro hmem
      rcases ht1 _ hmem with h | h <;> simp at h
    cases res1 with
    | error e1 =>
      simp only [executeP2PViaRouter, hpf] at hg
      exact absurd hg hnt1
    | ok snap =>
      simp only [executeP2PViaRouter, hpf] at hg
      cases hch : p2pPreflightCheck decimals amount snap with
      | error e2 =>
        rw [hch] at hg
        exact absurd hg hnt1
      | ok u =>
        rw [hch] at hg
        cases hfee : envP.calcFee with
        | error e3 =>
          rw [hfee] at hg
          simp only [List.mem_append, List.mem_cons, List.not_mem_nil, or_false] at hg
          rcases hg with hg | hg
          · exact absurd hg hnt1
          · simp at hg
        | ok fee =>
          rw [hfee] at hg
          rcases hge : retried poolSize ChainOp.gasEstimate envP.estimateGas i1
            with ⟨res2, t2, i2⟩
          have ht2 : ∀ o ∈ t2, o = ChainOp.gasEstimate ∨ o = ChainOp.rotate := by
            have := retried_trace poolSize ChainOp.gasEstimate envP.estimateGas i1
            rw [hge] at this
            exact this
          have hnt2 : ChainOp.txWrite g ∉ t2 := by
            intro hmem
            rcases ht2 _ hmem with h | h <;> simp at h
          cases res2 with
          | error e4 =>
            rw [hge] at hg
            simp only [List.mem_append, List.mem_cons, List.not_mem_nil, or_false] at hg
            rcases hg with (hg | hg) | hg
            · exact absurd hg hnt1
            · simp at hg
            · exact absurd hg hnt2
          | ok gas =>
            rw [hge] at hg
            simp only [List.mem_append, List.mem_cons, List.not_mem_nil, or_false] at hg
            rcases hg with ((hg | hg) | hg) | hg | hg
            · exact absurd hg hnt1
            · simp at hg
            · exact absurd hg hnt2
            · simp only [ChainOp.txWrite.injEq] at hg
              refine ⟨gas, retried_ok hge, hg, ?_⟩
              rw [hg]
              exact Nat.le_add_right gas (gas / 5)
            · simp at hg
  · intro hg
    rcases hpf : retried poolSize ChainOp.preflightRead envG.preflight idx with ⟨res1, t1, i1⟩
    have ht1 : ∀ o ∈ t1, o = ChainOp.preflightRead ∨ o = ChainOp.rotate := by
      have := retried_trace poolSize ChainOp.preflightRead envG.preflight idx
      rw [hpf] at this
      exact this
    have hnt1 : ChainOp.txWrite g ∉ t1 := by
      intro hmem
      rcases ht1 _ hmem with h | h <;> simp at h
    cases res1 with
    | error e1 =>
      simp only [executeGrantViaRouter, hpf] at hg
      exact absurd hg hnt1
    | ok snap =>
      simp only [executeGrantViaRouter, hpf] at hg
      cases hch : grantPreflightCheck decimals amount snap with
      | error e2 =>
        rw [hch] at hg
        exact absurd hg hnt1
      | ok u =>
        rw [hch] at hg
        cases hfee : envG.calcFee with
        | error e3 =>
          rw [hfee] at hg
          simp only [List.mem_append, List.mem_cons, List.not_mem_nil, or_false] at hg
          rcases hg with hg | hg
          · exact absurd hg hnt1
          · simp at hg
        | ok fee =>
          rw [hfee] at hg
          rcases hge : retried poolSize ChainOp.gasEstimate envG.estimateGas i1
            with ⟨res2, t2, i2⟩
          have ht2 : ∀ o ∈ t2, o = ChainOp.gasEstimate ∨ o = ChainOp.rotate := by
            have := retried_trace poolSize ChainOp.gasEstimate envG.estimateGas i1
            rw [hge] at this
            exact this
          have hnt2 : ChainOp.txWrite g ∉ t2 := by
            intro hmem
            rcases ht2 _ hmem with h | h <;> simp at h
          cases res2 with
          | error e4 =>
            rw [hge] at hg
            simp only [List.mem_append, List.mem_cons, List.not_mem_nil, or_false] at hg
            rcases hg with (hg | hg) | hg
            · exact absurd hg hnt1
            · simp at hg
            · exact absurd hg hnt2
          | ok gas =>
            rw [hge] at hg
            simp only [List.mem_append, List.mem_cons, List.not_mem_nil, or_false] at hg
            rcases hg with ((hg | hg) | hg) | hg | hg
            · exact absurd hg hnt1
            · simp at hg
            · exact absurd hg hnt2
            · simp only [ChainOp.txWrite.injEq] at hg
              refine ⟨gas, retried_ok hge, hg, ?_⟩
              rw [hg]
              exact Nat.le_add_right gas (gas / 5)
            · simp at hg

/-- Witness for C5: in a fully successful run with estimate 90000 the
submitted write carries limit 90000 + 90000 / 5 = 108000. -/
theorem C5_gas_buffer_witness :
    ChainOp.txWrite 108000 ∈ (executeP2PViaRouter demoP2PEnvOk 6 4 0 50).2.1 ∧
    ∃ e, (∃ a, demoP2PEnvOk.estimateGas a = .ok e) ∧
      108000 = e + e / 5 ∧ e ≤ 108000 := by
  have hmem : ChainOp.txWrite 108000 ∈ (executeP2PViaRouter demoP2PEnvOk 6 4 0 50).2.1 := by
    decide
  exact ⟨hmem, (C5_gas_buffer demoP2PEnvOk demoGrantEnvOk 6 4 0 50 108000).1 hmem⟩

/-! ## C7: rate-limit classification and the scope of the rotate-retry -/

/-- C7 as stated is refuted by the fee-calculation read: it is a chain
read inside both executors, yet a failure there — even one classified
as a rate limit — propagates immediately with no rotation and no
retry.  This closed run exhibits it: the pre-flight read succeeds, the
pre-flight checks pass, the fee read fails with a message containing
"429" that the classifier accepts, and the executor returns that error
with a trace containing no rotation. -/
theorem C7_counterexample :
    isRateLimitError "HTTP 429 Too Many Requests" = true ∧
    executeP2PViaRouter demoP2PEnvFeeRateLimited 6 4 0 50
      = (.error "HTTP 429 Too Many Requests",
          [ChainOp.preflightRead, ChainOp.feeRead], 0) ∧
    ChainOp.rotate ∉ [ChainOp.preflightRead, ChainOp.feeRead] := by
  refine ⟨by decide, ?_, by decide⟩
  rfl

/-- C7 (amended): an error is rate-limit-classified if and only if its
message contains "429", or contains "rate limit" or "over rate limit"
case-insensitively.  For the pre-flight read batch and the
gas-estimation call — the operations wrapped by the retry pattern in
both executors — a classified failure triggers exactly one
rotate-rebuild-retry cycle whose second outcome propagates to the
caller unchanged, while an unclassified failure propagates immediately
with no rotation; the fee-calculation read, by contrast, propagates
every failure immediately with no rotation and no retry, in the p2p
executor and in the grant executor alike. -/
theorem C7_rate_limit_retry_amended :
    (∀ m : String, isRateLimitError m = true ↔
      (containsSub m "429" = true ∨ containsSubCI m "rate limit" = true
        ∨ containsSubCI m "over rate limit" = true)) ∧
    (∀ (α : Type) (poolSize : Nat) (op : ChainOp)
        (att : Nat → Except String α) (idx : Nat) (v : α) (e : String),
      (att 0 = .ok v → retried poolSize op att idx = (.ok v, [op], idx)) ∧
      (att 0 = .error e → isRateLimitError e = true →
        retried poolSize op att idx
          = (att 1, [op, ChainOp.rotate, op], rotateRpc poolSize idx)) ∧
      (att 0 = .error e → isRateLimitError e = false →
        retried poolSize op att idx = (.error e, [op], idx))) ∧
    (∀ (env : P2PEnv) (decimals poolSize idx amount : Nat)
        (snap : P2PSnapshot) (e : String),
      env.preflight 0 = .ok snap →
      p2pPreflightCheck decimals amount snap = .ok () →
      env.calcFee = .error e →
      executeP2PViaRouter env decimals poolSize idx amount
        = (.error e, [ChainOp.preflightRead, ChainOp.feeRead], idx)) ∧
    (∀ (env : GrantEnv) (decimals poolSize idx amount : Nat)
        (snap : GrantSnapshot) (e : String),
      env.preflight 0 = .ok snap →
      grantPreflightCheck decimals amount snap = .ok () →
      env.calcFee = .error e →
      executeGrantViaRouter env decimals poolSize idx amount
        = (.error e, [ChainOp.preflightRead, ChainOp.feeRead], idx)) := by
  refine ⟨?_, ?_, ?_, ?_⟩
  · intro m
    have h1 : strLower "rate limit" = "rate limit" := by decide
    have h2 : strLower "over rate limit" = "over rate limit" := by decide
    unfold isRateLimitError containsSubCI
    rw [h1, h2]
    simp [Bool.or_eq_true, or_assoc]
  · intro α poolSize op att idx v e
    refine ⟨?_, ?_, ?_⟩
    · intro h
      unfold retried
      rw [h]
    · intro h hrl
      unfold retried
      rw [h]
      simp [hrl]
    · intro h hrl
      unfold retried
      rw [h]
      simp [hrl]
  · intro env decimals poolSize idx amount snap e hpf hch hfee
    have hr : retried poolSize ChainOp.preflightRead env.preflight idx
        = (.ok snap, [ChainOp.preflightRead], idx) := by
      unfold retried
      rw [hpf]
    simp only [executeP2PViaRouter, hr, hch, hfee]
    rfl
  · intro env decimals poolSize idx amount snap e hpf hch hfee
    have hr : retried poolSize ChainOp.preflightRead env.preflight idx
        = (.ok snap, [ChainOp.preflightRead], idx) := by
      unfold retried
      rw [hpf]
    simp only [executeGrantViaRouter, hr, hch, hfee]
    rfl

/-- Witness for C7 (amended) at concrete inputs: a classified message,
a rate-limited first attempt retried once after a rotation, an
unclassified failure propagated with no rotation, and a classified fee
read failure propagated with no rotation in each executor. -/
theorem C7_rate_limit_retry_amended_witness :
    isRateLimitError "OVER RATE LIMIT" = true ∧
    retried 4 ChainOp.preflightRead
        (fun a => if a == 0 then (.error "429" : Except String Nat) else .ok 7) 0
      = (.ok 7, [ChainOp.preflightRead, ChainOp.rotate, ChainOp.preflightRead], 1) ∧
    retried 4 ChainOp.gasEstimate
        (fun _ => (.error "connection refused" : Except String Nat)) 0
      = (.error "connection refused", [ChainOp.gasEstimate], 0) ∧
    executeP2PViaRouter demoP2PEnvFeeRateLimited 6 4 0 50
      = (.error "HTTP 429 Too Many Requests",
          [ChainOp.preflightRead, ChainOp.feeRead], 0) ∧
    executeGrantViaRouter demoGrantEnvFeeRateLimited 6 4 0 50
      = (.error "HTTP 429 Too Many Requests",
          [ChainOp.preflightRead, ChainOp.feeRead], 0) := by
  refine ⟨?_, ?_, ?_, ?_, ?_⟩
  · exact (C7_rate_limit_retry_amended.1 "OVER RATE LIMIT").mpr
      (Or.inr (Or.inr (by decide)))
  · exact ((C7_rate_limit_retry_amended.2.1 Nat 4 ChainOp.preflightRead
      (fun a => if a == 0 then (.error "429" : Except String Nat) else .ok 7)
      0 7 "429").2.1 rfl (by decide))
  · exact ((C7_rate_limit_retry_amended.2.1 Nat 4 ChainOp.gasEstimate
      (fun _ => (.error "connection refused" : Except String Nat))
      0 7 "connection refused").2.2 rfl (by decide))
  · exact C7_rate_limit_retry_amended.2.2.1 demoP2PEnvFeeRateLimited 6 4 0 50
      ⟨7, 100 * 10 ^ 6, 100 * 10 ^ 6, false⟩ "HTTP 429 Too Many Requests" rfl rfl rfl
  · exact C7_rate_limit_retry_amended.2.2.2 demoGrantEnvFeeRateLimited 6 4 0 50
      ⟨false, 100 * 10 ^ 6⟩ "HTTP 429 Too Many Requests" rfl rfl rfl

/-! ## C1: the deduplication gate is exactly-once -/

theorem cmd_logged_short_circuit (e : CmdEnv) (st : CmdState) (h : st.logged = true) :
    processP2PCommand e st = (st, [CmdStep.checkDb]) := by
  unfold processP2PCommand
  simp [h]

theorem cmd_onChain_no_exec (e : CmdEnv) (st : CmdState) (h : st.onChain = true) :
    (processP2PCommand e st).1.onChain = true ∧
    ∀ b, CmdStep.execute b ∉ (processP2PCommand e st).2 := by
  by_cases hl : st.logged = true
  · rw [cmd_logged_short_circuit e st hl]
    exact ⟨h, by simp⟩
  · have hl' : st.logged = false := by simpa using hl
    unfold processP2PCommand
    simp [hl', h]

theorem cmd_success_state (e : CmdEnv) (st : CmdState)
    (h : CmdStep.execute true ∈ (processP2PCommand e st).2) :
    (processP2PCommand e st).1 = ⟨e.logOk, true⟩ := by
  by_cases hl : st.logged = true
  · simp [processP2PCommand, hl] at h
  · have hl' : st.logged = false := by simpa using hl
    by_cases hoc : st.onChain = true
    · simp [processP2PCommand, hl', hoc] at h
    · have hoc' : st.onChain = false := by simpa using hoc
      rcases hp : e.parsed with _ | ⟨amt, tgt⟩
      · simp [processP2PCommand, hl', hoc', hp] at h
      · rcases hs : e.sender with _ | sender
        · simp [processP2PCommand, hl', hoc', hp, hs] at h
        · by_cases hal : e.allowance < amt
          · simp [processP2PCommand, hl', hoc', hp, hs, hal] at h
          · by_cases hba : e.balance < amt
            · simp [processP2PCommand, hl', hoc', hp, hs, hal, hba] at h
            · rcases hr : e.receiver with _ | recv
              · simp [processP2PCommand, hl', hoc', hp, hs, hal, hba, hr] at h
              · by_cases hex : e.execOk = true
                · simp [processP2PCommand, hl', hoc', hp, hs, hal, hba, hr, hex]
                · have hex' : e.execOk = false := by simpa using hex
                  simp [processP2PCommand, hl', hoc', hp, hs, hal, hba, hr, hex'] at h

theorem runCmds_noExec (es : List CmdEnv) :
    ∀ (st : CmdState), st.onChain = true →
      ∀ b, CmdStep.execute b ∉ (runCmds es st).2 := by
  induction es with
  | nil =>
    intro st h b
    simp [runCmds]
  | cons e rest ih =>
    intro st h b
    simp only [runCmds, List.mem_append]
    rintro (hmem | hmem)
    · exact (cmd_onChain_no_exec e st h).2 b hmem
    · exact ih _ (cmd_onChain_no_exec e st h).1 b hmem

/-- C1: once an invocation of the command processor has executed a
transfer for a dedup key (the trace of that invocation contains a
successful on-chain execution), any sequence of later invocations for
the same key performs no on-chain state-changing call at all; a key
whose durable-log layer already holds a record short-circuits at the
first gate with only the local-log check in its trace; and when the
on-chain marker is found while the local log has no record, the
invocation checks the two layers in order, writes the synchronizing
record to the local log before returning, and performs no execution. -/
theorem C1_dedup_exactly_once (e : CmdEnv) (s : CmdState) (es : List CmdEnv)
    (hsucc : CmdStep.execute true ∈ (processP2PCommand e s).2) :
    (∀ b, CmdStep.execute b ∉ (runCmds es (processP2PCommand e s).1).2) ∧
    (∀ (e2 : CmdEnv) (st : CmdState), st.logged = true →
      processP2PCommand e2 st = (st, [CmdStep.checkDb])) ∧
    (∀ (e2 : CmdEnv) (st : CmdState), st.logged = false → st.onChain = true →
      processP2PCommand e2 st =
        (⟨e2.logOk, true⟩,
          [CmdStep.checkDb, CmdStep.checkOnChain,
            CmdStep.logWrite "SKIP_ALREADY_ONCHAIN"]) ∧
      ∀ b, CmdStep.execute b ∉ (processP2PCommand e2 st).2) := by
  refine ⟨?_, ?_, ?_⟩
  · intro b
    have hstate := cmd_success_state e s hsucc
    exact runCmds_noExec es _ (by rw [hstate]) b
  · intro e2 st h
    exact cmd_logged_short_circuit e2 st h
  · intro e2 st hl hoc
    constructor
    · unfold processP2PCommand
      have : st = ⟨false, true⟩ := by
        cases st
        simp_all
      rw [this]
      simp
    · exact (cmd_onChain_no_exec e2 st hoc).2

/-- Witness for C1: a concrete successful invocation followed by two
further polls for the same key. -/
theorem C1_dedup_exactly_once_witness :
    (∀ b, CmdStep.execute b ∉
      (runCmds [demoCmdEnvOk, demoCmdEnvOk]
        (processP2PCommand demoCmdEnvOk ⟨false, false⟩).1).2) ∧
    (∀ (e2 : CmdEnv) (st : CmdState), st.logged = true →
      processP2PCommand e2 st = (st, [CmdStep.checkDb])) ∧
    (∀ (e2 : CmdEnv) (st : CmdState), st.logged = false → st.onChain = true →
      processP2PCommand e2 st =
        (⟨e2.logOk, true⟩,
          [CmdStep.checkDb, CmdStep.checkOnChain,
            CmdStep.logWrite "SKIP_ALREADY_ONCHAIN"]) ∧
      ∀ b, CmdStep.execute b ∉ (processP2PCommand e2 st).2) :=
  C1_dedup_exactly_once demoCmdEnvOk ⟨false, false⟩ [demoCmdEnvOk, demoCmdEnvOk]
    (by decide)

/-! ## Batch lemmas shared by the multi-recipient claims -/

theorem string_append_left_cancel {a b c : String} (h : a ++ b = a ++ c) : b = c := by
  have h2 := congrArg String.toList h
  rw [string_toList_append, string_toList_append] at h2
  have h3 := List.append_cancel_left h2
  cases b
  cases c
  simp only [String.toList] at h3
  exact congrArg String.mk h3

theorem length_filter_partition (p : α → Bool) (l : List α) :
    (l.filter p).length + (l.filter (fun a => !(p a))).length = l.length := by
  induction l with
  | nil => rfl
  | cons x rest ih =>
    cases hx : p x <;> simp [List.filter_cons, hx] <;> omega

theorem batch_findIdx_decomp (tag : String) (p : Profile) :
    ∀ (pre rest : List (String × Profile)),
      (∀ q ∈ pre, q.1 ≠ tag) →
      List.findIdx (fun q => q.1 == tag) (pre ++ (tag, p) :: rest) = pre.length := by
  intro pre
  induction pre with
  | nil =>
    intro rest _
    simp [List.findIdx_cons]
  | cons x pre ih =>
    intro rest hpre
    have hx : (x.1 == tag) = false := by
      simpa using hpre x (by simp)
    simp only [List.cons_append, List.findIdx_cons, hx, cond_false]
    rw [ih rest (fun q hq => hpre q (by simp [hq]))]
    simp

theorem nodup_pre_ne (tag : String) (p : Profile) (pre rest : List (String × Profile))
    (hnd : ((pre ++ (tag, p) :: rest).map Prod.fst).Nodup) :
    ∀ q ∈ pre, q.1 ≠ tag := by
  intro q hq heq
  rw [List.map_append] at hnd
  rcases List.nodup_append.mp hnd with ⟨-, -, hdisj⟩
  exact hdisj (List.mem_map_of_mem Prod.fst hq) (by simp [heq])

theorem execLoop_all_ok (env : BatchEnv) (tid : String) (full : List (String × Profile))
    (hsh : String → String) :
    ∀ l, (∀ q ∈ l, env.execResult (tid ++ "_" ++ q.1) = .ok (hsh q.1)) →
      execLoop env tid full l
        = (l.map (fun q => Outcome.success (q.2.payTag.getD q.1) (hsh q.1)),
           l.map (fun q => tid ++ "_" ++ q.1)) := by
  intro l
  induction l with
  | nil => intro _; rfl
  | cons x rest ih =>
    intro h
    rcases x with ⟨tag, p⟩
    have hx := h (tag, p) (by simp)
    simp only [execLoop, hx]
    rw [ih (fun q hq => h q (by simp [hq]))]
    simp

theorem resolveTags_all_some (env : BatchEnv) (mk : String → Profile) :
    ∀ l, (∀ t ∈ l, env.resolve t = some (mk t)) →
      resolveTags env l = ([], l.map (fun t => (t, mk t))) := by
  intro l
  induction l with
  | nil => intro _; rfl
  | cons t rest ih =>
    intro h
    have ht := h t (by simp)
    simp only [resolveTags, ht]
    rw [ih (fun u hu => h u (by simp [hu]))]
    simp

theorem resolveTags_length (env : BatchEnv) :
    ∀ l, (resolveTags env l).1.length + (resolveTags env l).2.length = l.length := by
  intro l
  induction l with
  | nil => rfl
  | cons t rest ih =>
    cases ht : env.resolve t <;> simp only [resolveTags, ht] <;> simp <;> omega

theorem resolveTags_failed (env : BatchEnv) :
    ∀ l, ∀ o ∈ (resolveTags env l).1, o.isFailed = true := by
  intro l
  induction l with
  | nil => intro o ho; simp [resolveTags] at ho
  | cons t rest ih =>
    intro o ho
    cases ht : env.resolve t <;> simp only [resolveTags, ht] at ho
    · rcases (List.mem_cons).mp ho with h | h
      · rw [h]; rfl
      · exact ih o h
    · exact ih o ho

theorem resolveTags_fst_sublist (env : BatchEnv) :
    ∀ l, ((resolveTags env l).2.map Prod.fst).Sublist l := by
  intro l
  induction l with
  | nil => simp [resolveTags]
  | cons t rest ih =>
    cases ht : env.resolve t <;> simp only [resolveTags, ht]
    · exact ih.cons t
    · simp only [List.map_cons]
      exact ih.cons₂ t

theorem execLoop_length (env : BatchEnv) (tid : String)
    (full : List (String × Profile)) (hnd : (full.map Prod.fst).Nodup) :
    ∀ l pre, full = pre ++ l → (execLoop env tid full l).1.length = l.length := by
  intro l
  induction l with
  | nil => intro pre _; rfl
  | cons x rest ih =>
    intro pre hfull
    rcases x with ⟨tag, p⟩
    cases hx : env.execResult (tid ++ "_" ++ tag) with
    | ok hash =>
      simp only [execLoop, hx, List.length_cons]
      rw [ih (pre ++ [(tag, p)]) (by rw [hfull]; simp)]
    | error msg =>
      simp only [execLoop, hx]
      split
      · have hne := nodup_pre_ne tag p pre rest (by rw [← hfull]; exact hnd)
        have hidx : List.findIdx (fun q => q.1 == tag) full = pre.length := by
          rw [hfull]
          exact batch_findIdx_decomp tag p pre rest hne
        have hdrop : full.drop (pre.length + 1) = rest := by
          rw [hfull]
          have hd := @List.drop_append _ pre ((tag, p) :: rest) 1
          simp only [List.drop_succ_cons, List.drop_zero] at hd
          exact hd
        rw [hidx, hdrop]
        simp
      · simp only [List.length_cons]
        rw [ih (pre ++ [(tag, p)]) (by rw [hfull]; simp)]

theorem execLoop_keys (env : BatchEnv) (tid : String) (full : List (String × Profile)) :
    ∀ l, ∀ k ∈ (execLoop env tid full l).2,
      ∃ tg, tg ∈ l.map Prod.fst ∧ k = tid ++ "_" ++ tg := by
  intro l
  induction l with
  | nil => intro k hk; simp [execLoop] at hk
  | cons x rest ih =>
    intro k hk
    rcases x with ⟨tag, p⟩
    cases hx : env.execResult (tid ++ "_" ++ tag) with
    | ok hash =>
      simp only [execLoop, hx] at hk
      rcases (List.mem_cons).mp hk with h | h
      · exact ⟨tag, by simp, h⟩
      · rcases ih k h with ⟨tg, htg, hkeq⟩
        exact ⟨tg, by simp [htg], hkeq⟩
    | error msg =>
      simp only [execLoop, hx] at hk
      split at hk
      · simp at hk
        exact ⟨tag, by simp, hk⟩
      · rcases (List.mem_cons).mp hk with h | h
        · exact ⟨tag, by simp, h⟩
        · rcases ih k h with ⟨tg, htg, hkeq⟩
          exact ⟨tg, by simp [htg], hkeq⟩

theorem filter_of_all_failed (l : List Outcome) (h : ∀ o ∈ l, o.isFailed = true) :
    l.filter Outcome.isSuccess = [] ∧ l.filter Outcome.isFailed = l := by
  constructor
  · rw [List.filter_eq_nil_iff]
    intro o ho
    have := h o ho
    cases o with
    | success _ _ => simp [Outcome.isFailed] at this
    | failed _ _ => simp [Outcome.isSuccess]
  · rw [List.filter_eq_self]
    exact h

/-! ## C8: early abort of the batch loop on exhaustion errors -/

/-- C8: during sequential batch execution over a resolved list with
pairwise-distinct tags, a per-recipient failure whose classified reason
is balance or allowance exhaustion marks that recipient failed, marks
every subsequent unattempted recipient failed with the same reason
suffixed " (batch stopped)", and stops the loop (the attempted-key list
ends at the failing recipient); any other per-recipient failure marks
only that recipient failed and the loop continues with the rest. -/
theorem C8_batch_stop_on_exhaustion (env : BatchEnv) (tweetId : String)
    (pre rest : List (String × Profile)) (tag : String) (p : Profile) (msg : String)
    (hnd : ((pre ++ (tag, p) :: rest).map Prod.fst).Nodup)
    (hexec : env.execResult (tweetId ++ "_" ++ tag) = .error msg) :
    (classifyBatchError msg = "Insufficient balance"
        ∨ classifyBatchError msg = "Insufficient allowance" →
      execLoop env tweetId (pre ++ (tag, p) :: rest) ((tag, p) :: rest)
        = (Outcome.failed tag (classifyBatchError msg) ::
            rest.map (fun q =>
              Outcome.failed q.1 (classifyBatchError msg ++ " (batch stopped)")),
          [tweetId ++ "_" ++ tag])) ∧
    (classifyBatchError msg ≠ "Insufficient balance" →
      classifyBatchError msg ≠ "Insufficient allowance" →
      execLoop env tweetId (pre ++ (tag, p) :: rest) ((tag, p) :: rest)
        = (Outcome.failed tag (classifyBatchError msg)
            :: (execLoop env tweetId (pre ++ (tag, p) :: rest) rest).1,
          (tweetId ++ "_" ++ tag)
            :: (execLoop env tweetId (pre ++ (tag, p) :: rest) rest).2)) := by
  have hne := nodup_pre_ne tag p pre rest hnd
  have hidx : List.findIdx (fun q => q.1 == tag) (pre ++ (tag, p) :: rest)
      = pre.length :=
    batch_findIdx_decomp tag p pre rest hne
  have hdrop : (pre ++ (tag, p) :: rest).drop (pre.length + 1) = rest := by
    have hd := @List.drop_append _ pre ((tag, p) :: rest) 1
    simp only [List.drop_succ_cons, List.drop_zero] at hd
    exact hd
  constructor
  · intro hcl
    have hcond : (classifyBatchError msg == "Insufficient balance"
        || classifyBatchError msg == "Insufficient allowance") = true := by
      rcases hcl with h | h <;> simp [h]
    simp only [execLoop, hexec, hcond, if_true, hidx, hdrop]
  · intro hne1 hne2
    have hcond : (classifyBatchError msg == "Insufficient balance"
        || classifyBatchError msg == "Insufficient allowance") = false := by
      simp [hne1, hne2]
    simp only [execLoop, hexec, hcond, Bool.false_eq_true, if_false]

/-- Witness for C8: a two-recipient resolved list where the first
transfer fails with a balance-classified error and stops the batch, and
a separate run where a duplicate-classified error fails only the first
recipient and the loop continues to a successful second transfer. -/
theorem C8_batch_stop_on_exhaustion_witness :
    execLoop
        (BatchEnv.mk 25 100 (fun t => some (demoProfile t))
          (fun _ => .error "ERROR_BALANCE:Has 0, needs 10"))
        "tid" [("a", demoProfile "a"), ("b", demoProfile "b")]
        [("a", demoProfile "a"), ("b", demoProfile "b")]
      = (Outcome.failed "a" "Insufficient balance" ::
          [("b", demoProfile "b")].map (fun q =>
            Outcome.failed q.1 ("Insufficient balance" ++ " (batch stopped)")),
          ["tid" ++ "_" ++ "a"]) ∧
    execLoop
        (BatchEnv.mk 25 100 (fun t => some (demoProfile t))
          (fun k => if k == "tid_a" then .error "ERROR_DUPLICATE_TWEET"
            else .ok "0xh2"))
        "tid" [("a", demoProfile "a"), ("b", demoProfile "b")]
        [("a", demoProfile "a"), ("b", demoProfile "b")]
      = (Outcome.failed "a" "Already processed"
          :: (execLoop
              (BatchEnv.mk 25 100 (fun t => some (demoProfile t))
                (fun k => if k == "tid_a" then .error "ERROR_DUPLICATE_TWEET"
                  else .ok "0xh2"))
              "tid" [("a", demoProfile "a"), ("b", demoProfile "b")]
              [("b", demoProfile "b")]).1,
          ("tid" ++ "_" ++ "a")
            :: (execLoop
              (BatchEnv.mk 25 100 (fun t => some (demoProfile t))
                (fun k => if k == "tid_a" then .error "ERROR_DUPLICATE_TWEET"
                  else .ok "0xh2"))
              "tid" [("a", demoProfile "a"), ("b", demoProfile "b")]
              [("b", demoProfile "b")]).2) := by
  constructor
  · have h := (C8_batch_stop_on_exhaustion
      (BatchEnv.mk 25 100 (fun t => some (demoProfile t))
        (fun _ => .error "ERROR_BALANCE:Has 0, needs 10"))
      "tid" [] [("b", demoProfile "b")] "a" (demoProfile "a")
      "ERROR_BALANCE:Has 0, needs 10" (by decide) rfl).1 (Or.inl (by decide))
    have hc : classifyBatchError "ERROR_BALANCE:Has 0, needs 10"
        = "Insufficient balance" := by decide
    rw [hc] at h
    exact h
  · have h := (C8_batch_stop_on_exhaustion
      (BatchEnv.mk 25 100 (fun t => some (demoProfile t))
        (fun k => if k == "tid_a" then .error "ERROR_DUPLICATE_TWEET"
          else .ok "0xh2"))
      "tid" [] [("b", demoProfile "b")] "a" (demoProfile "a")
      "ERROR_DUPLICATE_TWEET" (by decide) rfl).2 (by decide) (by decide)
    have hc : classifyBatchError "ERROR_DUPLICATE_TWEET" = "Already processed" := by
      decide
    rw [hc] at h
    exact h

/-! ## C3: balance-driven truncation of the batch -/

/-- C3: for a batch of k pairwise-non-self recipients at per-recipient
amount a with sender balance B < a * k and m = B / a: if m = 0, every
recipient is marked failed with the insufficient-balance reason and no
transfer is attempted (empty attempted-key list); if 0 < m then — with
the allowance covering one transfer, every kept tag resolving, and
every kept transfer succeeding — exactly the first m recipients in
input order are attempted (the key list is exactly theirs, in order)
and recipients m+1..k are marked failed with the batch-limit
insufficient-balance reason, preserving input order. -/
theorem C3_batch_balance_truncation (env : BatchEnv) (sender : Profile) (amount : Nat)
    (tags : List String) (tweetId : String)
    (hamt : 0 < amount)
    (hself : ∀ t ∈ tags, isSelfTag sender t = false)
    (hbal : env.balance < amount * tags.length) :
    (env.balance / amount = 0 →
      executeMultiRecipientP2P env sender amount tags tweetId =
        (tags.map (fun t => Outcome.failed t "Insufficient balance"),
          ⟨tags.length, 0, tags.length⟩, [])) ∧
    (∀ (mk : String → Profile) (hsh : String → String),
      0 < env.balance / amount →
      amount ≤ env.allowance →
      (∀ t ∈ tags.take (env.balance / amount), env.resolve t = some (mk t)) →
      (∀ t ∈ tags.take (env.balance / amount),
        env.execResult (tweetId ++ "_" ++ t) = .ok (hsh t)) →
      executeMultiRecipientP2P env sender amount tags tweetId =
        ((tags.drop (env.balance / amount)).map
            (fun t => Outcome.failed t "Insufficient balance (batch limit)")
          ++ (tags.take (env.balance / amount)).map
            (fun t => Outcome.success ((mk t).payTag.getD t) (hsh t)),
          ⟨tags.length, env.balance / amount,
            tags.length - env.balance / amount⟩,
          (tags.take (env.balance / amount)).map
            (fun t => tweetId ++ "_" ++ t))) := by
  have hfil : tags.filter (fun t => !(isSelfTag sender t)) = tags :=
    List.filter_eq_self.mpr (fun a ha => by simp [hself a ha])
  have hfilself : tags.filter (fun t => isSelfTag sender t) = [] :=
    List.filter_eq_nil_iff.mpr (fun a ha => by simp [hself a ha])
  have htne : tags ≠ [] := by
    intro h
    rw [h] at hbal
    simp at hbal
  have hempty : tags.isEmpty = false := by
    cases tags
    · exact absurd rfl htne
    · rfl
  have hmk : env.balance / amount < tags.length :=
    (Nat.div_lt_iff_lt_mul hamt).mpr (by rw [Nat.mul_comm]; exact hbal)
  constructor
  · intro hm
    simp only [executeMultiRecipientP2P, hfil, hfilself, hempty, Bool.false_eq_true,
      if_false, List.map_nil, if_pos hbal, hm]
    simp
  · intro mk hsh hmpos hallow hres hexec
    have hm0 : (env.balance / amount == 0) = false :=
      beq_eq_false_iff_ne.mpr (Nat.pos_iff_ne_zero.mp hmpos)
    have hresolve := resolveTags_all_some env mk (tags.take (env.balance / amount)) hres
    have hexecmap : ∀ q ∈ (tags.take (env.balance / amount)).map (fun t => (t, mk t)),
        env.execResult (tweetId ++ "_" ++ q.1) = .ok (hsh q.1) := by
      intro q hq
      rcases List.mem_map.mp hq with ⟨t, ht, rfl⟩
      exact hexec t ht
    have hloop := execLoop_all_ok env tweetId
      ((tags.take (env.balance / amount)).map (fun t => (t, mk t))) hsh
      ((tags.take (env.balance / amount)).map (fun t => (t, mk t))) hexecmap
    have hlen_take : (tags.take (env.balance / amount)).length
        = env.balance / amount := by
      rw [List.length_take]
      omega
    have hlen_drop : (tags.drop (env.balance / amount)).length
        = tags.length - env.balance / amount := List.length_drop _ _
    simp only [executeMultiRecipientP2P, hfil, hfilself, hempty, Bool.false_eq_true,
      if_false, List.map_nil, if_pos hbal, hm0, List.nil_append]
    simp only [batchPhase2, if_neg (by omega : ¬ env.allowance < amount),
      hresolve, hloop]
    have hfailed : ∀ o ∈ (tags.drop (env.balance / amount)).map
        (fun t => Outcome.failed t "Insufficient balance (batch limit)"),
        o.isFailed = true := by
      intro o ho
      rcases List.mem_map.mp ho with ⟨t, ht, rfl⟩
      rfl
    rcases filter_of_all_failed _ hfailed with ⟨hf1, hf2⟩
    have hsucc2 : (List.map (fun q => Outcome.success (q.2.payTag.getD q.1) (hsh q.1))
        (List.map (fun t => (t, mk t)) (List.take (env.balance / amount) tags))).filter
          Outcome.isSuccess
        = List.map (fun q => Outcome.success (q.2.payTag.getD q.1) (hsh q.1))
            (List.map (fun t => (t, mk t)) (List.take (env.balance / amount) tags)) := by
      rw [List.filter_eq_self]
      intro o ho
      rcases List.mem_map.mp ho with ⟨q, hq, rfl⟩
      rfl
    have hfail2 : (List.map (fun q => Outcome.success (q.2.payTag.getD q.1) (hsh q.1))
        (List.map (fun t => (t, mk t)) (List.take (env.balance / amount) tags))).filter
          Outcome.isFailed = [] := by
      rw [List.filter_eq_nil_iff]
      intro o ho
      rcases List.mem_map.mp ho with ⟨q, hq, rfl⟩
      simp [Outcome.isFailed]
    refine Prod.ext ?_ (Prod.ext ?_ ?_)
    · simp [Function.comp_def]
    · simp only [List.append_nil, List.filter_append, hf1, hf2, hsucc2, hfail2,
        List.nil_append, List.length_append, List.length_map, hlen_take, hlen_drop,
        List.length_nil]
    · simp [Function.comp_def]

/-- Witness for C3 at the spec scenario: 3 recipients, 10 each, balance
25, so m = 2: recipients 1 and 2 succeed, recipient 3 is failed with
the batch-limit reason, and exactly the first two keys are attempted. -/
theorem C3_batch_balance_truncation_witness :
    executeMultiRecipientP2P demoBatchEnv demoSender 10 ["r1", "r2", "r3"] "tid" =
      ((["r1", "r2", "r3"].drop (25 / 10)).map
          (fun t => Outcome.failed t "Insufficient balance (batch limit)")
        ++ (["r1", "r2", "r3"].take (25 / 10)).map
          (fun t => Outcome.success ((demoProfile t).payTag.getD t) "0xbatchhash"),
        ⟨3, 25 / 10, 3 - 25 / 10⟩,
        (["r1", "r2", "r3"].take (25 / 10)).map (fun t => "tid" ++ "_" ++ t)) :=
  (C3_batch_balance_truncation demoBatchEnv demoSender 10 ["r1", "r2", "r3"] "tid"
      (by decide) (by decide) (by decide)).2 demoProfile (fun _ => "0xbatchhash")
    (by decide) (by decide) (fun _ _ => rfl) (fun _ _ => rfl)

/-! ## C10: per-recipient accounting of the batch result -/

theorem batchPhase2_parts (env : BatchEnv) (amount : Nat) (tid : String)
    (total : Nat) (acc : List Outcome) (tags2 : List String)
    (hnd2 : tags2.Nodup) (hacc : ∀ o ∈ acc, o.isFailed = true) :
    (batchPhase2 env amount tid total acc tags2).1.length
      = acc.length + tags2.length ∧
    (batchPhase2 env amount tid total acc tags2).2.1 =
      ⟨total,
        ((batchPhase2 env amount tid total acc tags2).1.filter
          Outcome.isSuccess).length,
        ((batchPhase2 env amount tid total acc tags2).1.filter
          Outcome.isFailed).length⟩ ∧
    (∀ k ∈ (batchPhase2 env amount tid total acc tags2).2.2,
      ∃ tg, tg ∈ tags2 ∧ k = tid ++ "_" ++ tg) ∧
    (∀ o ∈ acc, o ∈ (batchPhase2 env amount tid total acc tags2).1) := by
  by_cases hA : env.allowance < amount
  · have hdef : batchPhase2 env amount tid total acc tags2
        = (acc ++ tags2.map (fun t => Outcome.failed t "Insufficient allowance"),
            ⟨total, 0,
              (acc ++ tags2.map (fun t =>
                Outcome.failed t "Insufficient allowance")).length⟩, []) := by
      simp only [batchPhase2, if_pos hA]
    have hallfail : ∀ o ∈ acc ++ tags2.map
        (fun t => Outcome.failed t "Insufficient allowance"), o.isFailed = true := by
      intro o ho
      rcases List.mem_append.mp ho with h | h
      · exact hacc o h
      · rcases List.mem_map.mp h with ⟨t, ht, rfl⟩
        rfl
    rcases filter_of_all_failed _ hallfail with ⟨hf1, hf2⟩
    rw [hdef]
    refine ⟨by simp, ?_, by simp, fun o ho => List.mem_append_left _ ho⟩
    simp only [hf1, hf2, List.length_nil]
  · have hdef : batchPhase2 env amount tid total acc tags2
        = (acc ++ (resolveTags env tags2).1
              ++ (execLoop env tid (resolveTags env tags2).2
                  (resolveTags env tags2).2).1,
            ⟨total,
              ((acc ++ (resolveTags env tags2).1
                ++ (execLoop env tid (resolveTags env tags2).2
                    (resolveTags env tags2).2).1).filter Outcome.isSuccess).length,
              ((acc ++ (resolveTags env tags2).1
                ++ (execLoop env tid (resolveTags env tags2).2
                    (resolveTags env tags2).2).1).filter Outcome.isFailed).length⟩,
            (execLoop env tid (resolveTags env tags2).2
              (resolveTags env tags2).2).2) := by
      simp only [batchPhase2, if_neg hA]
    have hndres : ((resolveTags env tags2).2.map Prod.fst).Nodup :=
      (resolveTags_fst_sublist env tags2).nodup hnd2
    have hlenexec : (execLoop env tid (resolveTags env tags2).2
        (resolveTags env tags2).2).1.length = (resolveTags env tags2).2.length :=
      execLoop_length env tid (resolveTags env tags2).2 hndres
        (resolveTags env tags2).2 [] rfl
    rw [hdef]
    refine ⟨?_, rfl, ?_, ?_⟩
    · simp only [List.length_append, hlenexec]
      have := resolveTags_length env tags2
      omega
    · intro k hk
      rcases execLoop_keys env tid (resolveTags env tags2).2
        (resolveTags env tags2).2 k hk with ⟨tg, htg, hkeq⟩
      have hsub : tg ∈ tags2 :=
        (resolveTags_fst_sublist env tags2).subset htg
      exact ⟨tg, hsub, hkeq⟩
    · intro o ho
      exact List.mem_append_left _ (List.mem_append_left _ ho)

/-- C10: for a batch over pairwise-distinct recipient tags, the
per-recipient outcome sequence has exactly one entry per requested
recipient; a recipient equal to the sender's own tag is recorded as
failed with the self-send reason and no attempted dedup key is derived
from it, in every environment (so independent of balance and allowance
state); and the summary is exactly the requested-recipient count
together with the number of success entries and the number of failed
entries in the sequence. -/
theorem C10_batch_result_accounting (env : BatchEnv) (sender : Profile) (amount : Nat)
    (tags : List String) (tweetId : String) (hnd : tags.Nodup) :
    (executeMultiRecipientP2P env sender amount tags tweetId).1.length
      = tags.length ∧
    (∀ t ∈ tags, isSelfTag sender t = true →
      Outcome.failed t "Cannot send to yourself"
        ∈ (executeMultiRecipientP2P env sender amount tags tweetId).1 ∧
      ∀ k ∈ (executeMultiRecipientP2P env sender amount tags tweetId).2.2,
        k ≠ tweetId ++ "_" ++ t) ∧
    (executeMultiRecipientP2P env sender amount tags tweetId).2.1 =
      ⟨tags.length,
        ((executeMultiRecipientP2P env sender amount tags tweetId).1.filter
          Outcome.isSuccess).length,
        ((executeMultiRecipientP2P env sender amount tags tweetId).1.filter
          Outcome.isFailed).length⟩ := by
  have hpart := length_filter_partition (fun t => isSelfTag sender t) tags
  have hselffail : ∀ o ∈ (tags.filter (fun t => isSelfTag sender t)).map
      (fun t => Outcome.failed t "Cannot send to yourself"), o.isFailed = true := by
    intro o ho
    rcases List.mem_map.mp ho with ⟨t, ht, rfl⟩
    rfl
  have hmemself : ∀ t ∈ tags, isSelfTag sender t = true →
      Outcome.failed t "Cannot send to yourself"
        ∈ (tags.filter (fun t => isSelfTag sender t)).map
            (fun t => Outcome.failed t "Cannot send to yourself") := by
    intro t ht hs
    exact List.mem_map_of_mem _ (List.mem_filter.mpr ⟨ht, hs⟩)
  have hfiltns : ∀ tg ∈ tags.filter (fun t => !(isSelfTag sender t)),
      isSelfTag sender tg = false := by
    intro tg htg
    have h2 := (List.mem_filter.mp htg).2
    simpa using h2
  have hkeyne : ∀ (t : String), isSelfTag sender t = true →
      ∀ tg ∈ tags.filter (fun t => !(isSelfTag sender t)),
        tweetId ++ "_" ++ tg ≠ tweetId ++ "_" ++ t := by
    intro t hs tg htg heq
    have : tg = t := string_append_left_cancel heq
    rw [this] at htg
    rw [hfiltns t htg] at hs
    exact Bool.false_ne_true hs
  by_cases hE : (tags.filter (fun t => !(isSelfTag sender t))).isEmpty = true
  · have hfilt : tags.filter (fun t => !(isSelfTag sender t)) = [] := by
      cases h : tags.filter (fun t => !(isSelfTag sender t))
      · rfl
      · rw [h] at hE
        simp at hE
    have hdef : executeMultiRecipientP2P env sender amount tags tweetId
        = ((tags.filter (fun t => isSelfTag sender t)).map
            (fun t => Outcome.failed t "Cannot send to yourself"),
          ⟨tags.length, 0,
            ((tags.filter (fun t => isSelfTag sender t)).map
              (fun t => Outcome.failed t "Cannot send to yourself")).length⟩, []) := by
      simp only [executeMultiRecipientP2P, hE, if_true]
    rcases filter_of_all_failed _ hselffail with ⟨hf1, hf2⟩
    rw [hdef]
    refine ⟨?_, ?_, ?_⟩
    · simp only [List.length_map]
      rw [hfilt] at hpart
      simpa using hpart
    · intro t ht hs
      refine ⟨hmemself t ht hs, ?_⟩
      intro k hk
      simp at hk
    · simp only [hf1, hf2, List.length_nil]
  · have hE' : (tags.filter (fun t => !(isSelfTag sender t))).isEmpty = false := by
      simpa using hE
    by_cases hB : env.balance
        < amount * (tags.filter (fun t => !(isSelfTag sender t))).length
    · by_cases hA0 : env.balance / amount = 0
      · have hdef : executeMultiRecipientP2P env sender amount tags tweetId
            = ((tags.filter (fun t => isSelfTag sender t)).map
                  (fun t => Outcome.failed t "Cannot send to yourself")
                ++ (tags.filter (fun t => !(isSelfTag sender t))).map
                  (fun t => Outcome.failed t "Insufficient balance"),
              ⟨tags.length, 0,
                ((tags.filter (fun t => isSelfTag sender t)).map
                    (fun t => Outcome.failed t "Cannot send to yourself")
                  ++ (tags.filter (fun t => !(isSelfTag sender t))).map
                    (fun t => Outcome.failed t "Insufficient balance")).length⟩,
              []) := by
          simp only [executeMultiRecipientP2P, hE', Bool.false_eq_true, if_false,
            if_pos hB, hA0]
          simp
        have hallfail : ∀ o ∈ (tags.filter (fun t => isSelfTag sender t)).map
              (fun t => Outcome.failed t "Cannot send to yourself")
            ++ (tags.filter (fun t => !(isSelfTag sender t))).map
              (fun t => Outcome.failed t "Insufficient balance"),
            o.isFailed = true := by
          intro o ho
          rcases List.mem_append.mp ho with h | h
          · exact hselffail o h
          · rcases List.mem_map.mp h with ⟨t, ht, rfl⟩
            rfl
        rcases filter_of_all_failed _ hallfail with ⟨hf1, hf2⟩
        rw [hdef]
        refine ⟨?_, ?_, ?_⟩
        · simp only [List.length_append, List.length_map]
          omega
        · intro t ht hs
          refine ⟨List.mem_append_left _ (hmemself t ht hs), ?_⟩
          intro k hk
          simp at hk
        · simp only [hf1, hf2, List.length_nil]
      · have hdef : executeMultiRecipientP2P env sender amount tags tweetId
            = batchPhase2 env amount tweetId tags.length
                ((tags.filter (fun t => isSelfTag sender t)).map
                    (fun t => Outcome.failed t "Cannot send to yourself")
                  ++ ((tags.filter (fun t => !(isSelfTag sender t))).drop
                      (env.balance / amount)).map
                    (fun t => Outcome.failed t "Insufficient balance (batch limit)"))
                ((tags.filter (fun t => !(isSelfTag sender t))).take
                  (env.balance / amount)) := by
          have hA0' : (env.balance / amount == 0) = false :=
            beq_eq_false_iff_ne.mpr hA0
          simp only [executeMultiRecipientP2P, hE', Bool.false_eq_true, if_false,
            if_pos hB, hA0']
        have hampos : 0 < amount := by
          rcases Nat.eq_zero_or_pos amount with h | h
          · rw [h, Nat.div_zero] at hA0
            exact absurd rfl hA0
          · exact h
        have hmlt : env.balance / amount
            < (tags.filter (fun t => !(isSelfTag sender t))).length :=
          (Nat.div_lt_iff_lt_mul hampos).mpr (by rw [Nat.mul_comm]; exact hB)
        have hnd2 : ((tags.filter (fun t => !(isSelfTag sender t))).take
            (env.balance / amount)).Nodup :=
          (List.take_sublist _ _).nodup (hnd.filter _)
        have hacc : ∀ o ∈ (tags.filter (fun t => isSelfTag sender t)).map
              (fun t => Outcome.failed t "Cannot send to yourself")
            ++ ((tags.filter (fun t => !(isSelfTag sender t))).drop
                (env.balance / amount)).map
              (fun t => Outcome.failed t "Insufficient balance (batch limit)"),
            o.isFailed = true := by
          intro o ho
          rcases List.mem_append.mp ho with h | h
          · exact hselffail o h
          · rcases List.mem_map.mp h with ⟨t, ht, rfl⟩
            rfl
        rcases batchPhase2_parts env amount tweetId tags.length _ _ hnd2 hacc
          with ⟨hlen, hsum, hkeys, hmem⟩
        rw [hdef]
        refine ⟨?_, ?_, hsum⟩
        · rw [hlen]
          simp only [List.length_append, List.length_map, List.length_take,
            List.length_drop]
          omega
        · intro t ht hs
          refine ⟨hmem _ (List.mem_append_left _ (hmemself t ht hs)), ?_⟩
          intro k hk
          rcases hkeys k hk with ⟨tg, htg, rfl⟩
          exact hkeyne t hs tg (List.take_subset _ _ htg)
    · have hdef : executeMultiRecipientP2P env sender amount tags tweetId
          = batchPhase2 env amount tweetId tags.length
              ((tags.filter (fun t => isSelfTag sender t)).map
                (fun t => Outcome.failed t "Cannot send to yourself"))
              (tags.filter (fun t => !(isSelfTag sender t))) := by
        simp only [executeMultiRecipientP2P, hE', Bool.false_eq_true, if_false,
          if_neg hB]
      rcases batchPhase2_parts env amount tweetId tags.length _ _
        (hnd.filter _) hselffail with ⟨hlen, hsum, hkeys, hmem⟩
      rw [hdef]
      refine ⟨?_, ?_, hsum⟩
      · rw [hlen]
        simp only [List.length_map]
        omega
      · intro t ht hs
        refine ⟨hmem _ (hmemself t ht hs), ?_⟩
        intro k hk
        rcases hkeys k hk with ⟨tg, htg, rfl⟩
        exact hkeyne t hs tg htg

/-- Witness for C10: a two-tag batch containing the sender's own tag;
the self entry is failed, the other recipient succeeds, and the summary
counts 2 requested, 1 success, 1 failed. -/
theorem C10_batch_result_accounting_witness :
    (executeMultiRecipientP2P demoBatchEnv demoSender 10 ["sender", "r1"] "tid").1.length
      = 2 ∧
    (∀ t ∈ ["sender", "r1"], isSelfTag demoSender t = true →
      Outcome.failed t "Cannot send to yourself"
        ∈ (executeMultiRecipientP2P demoBatchEnv demoSender 10 ["sender", "r1"] "tid").1 ∧
      ∀ k ∈ (executeMultiRecipientP2P demoBatchEnv demoSender 10 ["sender", "r1"] "tid").2.2,
        k ≠ "tid" ++ "_" ++ t) ∧
    (executeMultiRecipientP2P demoBatchEnv demoSender 10 ["sender", "r1"] "tid").2.1 =
      ⟨2,
        ((executeMultiRecipientP2P demoBatchEnv demoSender 10 ["sender", "r1"] "tid").1.filter
          Outcome.isSuccess).length,
        ((executeMultiRecipientP2P demoBatchEnv demoSender 10 ["sender", "r1"] "tid").1.filter
          Outcome.isFailed).length⟩ :=
  C10_batch_result_accounting demoBatchEnv demoSender 10 ["sender", "r1"] "tid"
    (by decide)

end Monibot
